import Mathlib

/-!
Verification development for borg's `src/borg/testsuite/__init__.py`.

The module is test-support infrastructure: timestamp-precision selection and
comparison, filesystem capability probes, a directory-tree equality checker
built on `filecmp.dircmp`, an xattr noise filter, a fuse-mount scope manager
and a mount-state polling wait.  Filesystem and OS effects are embedded as
explicit oracle records (each observable OS call becomes a field holding its
outcome); Python exceptions become `Except`; Python's heterogeneous attribute
lists become lists of a `PyVal` sum type.
-/

namespace BorgTestsuite

/-! ### Timestamp precision (module lines 43-52)

`st_mtime_ns_round` is chosen at import time from `posix._have_functions`
(HAVE_FUTIMENS), `sysconfig.get_config_vars()` (HAVE_UTIMES) and
`sys.platform` (netbsd override).  The three environment facts are passed as
booleans. -/

def st_mtime_ns_round (have_futimens : Bool) (have_utimes : Bool)
    (is_netbsd : Bool) : Int :=
  let r : Int :=
    if have_futimens then 0       -- 1ns resolution
    else if have_utimes then -3   -- 1us resolution
    else -9                       -- 1s resolution
  if is_netbsd then -4 else r     -- 10us netbsd override

/-! ### Python `round` on integers with negative `ndigits`

`round(x, st_mtime_ns_round)` in `_assert_dirs_equal_cmp` calls CPython's
`int.__round__`, which rounds to the nearest multiple of `10 ** (-ndigits)`
with ties going to the even multiple.  `Int.fdiv`/`Int.fmod` are Python's
floor division and mod. -/

def roundHalfEven (x : Int) (m : Int) : Int :=
  let q := x.fdiv m
  let r := x.fmod m
  if 2 * r < m then q * m
  else if m < 2 * r then (q + 1) * m
  else if q % 2 = 0 then q * m else (q + 1) * m

def pyRound (x : Int) (ndigits : Int) : Int :=
  if 0 ≤ ndigits then x else roundHalfEven x (10 ^ (-ndigits).toNat)

/-! ### `same_ts_ns` (lines 55-59)

`int(abs(ts1 - ts2)) <= 10 ** (-st_mtime_ns_round)`.  The module-level
rounding exponent is passed explicitly; in the source it is always of the
form `-n` for a natural `n`, so the granularity is `10 ^ n`. -/

def same_ts_ns (roundExp : Int) (ts_ns1 ts_ns2 : Int) : Bool :=
  let diff_ts := (ts_ns1 - ts_ns2).natAbs
  let diff_max := 10 ^ (-roundExp).toNat
  diff_ts ≤ diff_max

/-! ### `no_selinux` (lines 158-164)

The Python function pattern-matches on `isinstance(x, dict)` /
`isinstance(x, list)` and has no final `return`, so any other input yields
`None`.  Keys are bytes in the source; `String` stands for the byte strings.
`XattrInput.other v` abstracts an arbitrary non-dict non-list value. -/

def SELINUX_KEY : String := "security.selinux"

inductive XattrInput where
  | dict (entries : List (String × String))
  | list (keys : List String)
  | other (v : Nat)
deriving DecidableEq

def no_selinux : XattrInput → Option XattrInput
  | .dict es => some (.dict (es.filter (fun kv => kv.1 != SELINUX_KEY)))
  | .list ks => some (.list (ks.filter (fun k => k != SELINUX_KEY)))
  | .other _ => none

/-! ### `stat` helpers

`stat.S_ISCHR` / `stat.S_ISBLK` test the file-type bits of `st_mode`;
`oct` renders the mode the way `d1.insert(1, oct(s1.st_mode))` does. -/

def S_IFMT (m : Nat) : Nat := m &&& 0o170000

def S_ISCHR (m : Nat) : Bool := S_IFMT m == 0o020000

def S_ISBLK (m : Nat) : Bool := S_IFMT m == 0o060000

def S_ISDIR (m : Nat) : Bool := S_IFMT m == 0o040000

def pyOct (n : Nat) : String := "0o" ++ String.mk (Nat.toDigits 8 n)

/-- The fields of `os.stat_result` the module reads. -/
structure Stat where
  st_mode : Nat
  st_uid : Nat
  st_gid : Nat
  st_rdev : Nat
  st_nlink : Nat
  st_dev : Nat
  st_ino : Nat
  st_mtime_ns : Int
  st_atime : Int
  st_mtime : Int
  st_birthtime : Int
deriving DecidableEq

/-! ### Capability probes (lines 68-155)

Every `os.*` call a probe performs is a field of an oracle record holding
the call's outcome: `.ok` a value, or `.error` an `OSError`.  A Python
`try ... except OSError: pass` around a block becomes a `match` on the
block's `Except` result mapping `.error` to the fall-through value.  Calls
the source places outside the `try` stay outside the `match`, so their
errors escape the probe (the probe's own result type is therefore also
`Except OSError Bool`). -/

structure OSError where
  errno : Nat
deriving DecidableEq

instance {e a : Type} [DecidableEq e] [DecidableEq a] : DecidableEq (Except e a) :=
  fun x y =>
  match x, y with
  | .ok v, .ok w =>
    if h : v = w then .isTrue (h ▸ rfl) else .isFalse (fun hc => h (Except.ok.inj hc))
  | .error v, .error w =>
    if h : v = w then .isTrue (h ▸ rfl) else .isFalse (fun hc => h (Except.error.inj hc))
  | .ok _, .error _ => .isFalse (fun hc => Except.noConfusion hc)
  | .error _, .ok _ => .isFalse (fun hc => Except.noConfusion hc)

/-- Oracle for `are_symlinks_supported` (lines 68-77): `os.symlink`,
`os.stat(..., follow_symlinks=False)`, `os.readlink`, all inside the `try`. -/
structure SymlinkOps where
  symlink : Except OSError Unit
  stat_nofollow : Except OSError Stat
  readlink : Except OSError String

def are_symlinks_supported (ops : SymlinkOps) : Except OSError Bool :=
  let body : Except OSError Bool := do
    _ ← ops.symlink
    let _ ← ops.stat_nofollow       -- a stat result is truthy
    let target ← ops.readlink
    pure (target == "somewhere")
  match body with
  | .ok b => .ok b                  -- `return True` / fall through to `return False`
  | .error _ => .ok false           -- `except OSError: pass` then `return False`

/-- Oracle for `are_hardlinks_supported` (lines 80-96).  The
`open(file1path, "w").close()` happens before the `try`. -/
structure HardlinkOps where
  has_os_link : Bool
  create_file1 : Except OSError Unit
  link : Except OSError Unit
  stat1 : Except OSError Stat
  stat2 : Except OSError Stat

def are_hardlinks_supported (ops : HardlinkOps) : Except OSError Bool :=
  if !ops.has_os_link then .ok false    -- some pythons do not have os.link
  else do
    _ ← ops.create_file1                -- outside the try: an OSError propagates
    let body : Except OSError Bool := do
      _ ← ops.link
      let s1 ← ops.stat1
      let s2 ← ops.stat2
      pure (s1.st_nlink == s2.st_nlink && s2.st_nlink == 2 && s1.st_ino == s2.st_ino)
    match body with
    | .ok b => pure b
    | .error _ => pure false

/-- Oracle for `are_fifos_supported` (lines 99-111): only `os.mkfifo`,
inside a `try` that also catches NotImplementedError and AttributeError. -/
structure FifoOps where
  mkfifo : Except OSError Unit

def are_fifos_supported (ops : FifoOps) : Except OSError Bool :=
  match ops.mkfifo with
  | .ok _ => .ok true
  | .error _ => .ok false

/-- Oracle for `is_utime_fully_supported` (lines 114-131).  The entry
creation (`os.symlink` or `open`) happens before the `try`. -/
structure UtimeOps where
  symlinks_supported : Bool
  create_symlink : Except OSError Unit
  create_file : Except OSError Unit
  utime_nofollow : Except OSError Unit
  stat_nofollow : Except OSError Stat

def is_utime_fully_supported (ops : UtimeOps) : Except OSError Bool := do
  _ ← (if ops.symlinks_supported then ops.create_symlink else ops.create_file)
  let body : Except OSError Bool := do
    _ ← ops.utime_nofollow            -- os.utime(filepath, (1000, 2000), follow_symlinks=False)
    let st ← ops.stat_nofollow
    pure (st.st_atime == 1000 && st.st_mtime == 2000)
  match body with
  | .ok b => pure b
  | .error _ => pure false

/-- Oracle for `is_birthtime_fully_supported` (lines 134-155).  The
`hasattr(os.stat_result, "st_birthtime")` guard and entry creation precede
the `try`; two `os.utime` calls and the final stat are inside it. -/
structure BirthtimeOps where
  has_birthtime_field : Bool
  symlinks_supported : Bool
  create_symlink : Except OSError Unit
  create_file : Except OSError Unit
  utime_birth : Except OSError Unit
  utime_mtime : Except OSError Unit
  stat_nofollow : Except OSError Stat

def is_birthtime_fully_supported (ops : BirthtimeOps) : Except OSError Bool :=
  if !ops.has_birthtime_field then .ok false
  else do
    _ ← (if ops.symlinks_supported then ops.create_symlink else ops.create_file)
    let body : Except OSError Bool := do
      _ ← ops.utime_birth             -- os.utime(filepath, (atime, birthtime), ...)
      _ ← ops.utime_mtime             -- os.utime(filepath, (atime, mtime), ...)
      let st ← ops.stat_nofollow
      pure (st.st_birthtime == 946598400 && st.st_mtime == 946684800 && st.st_atime == 946771200)
    match body with
    | .ok b => pure b
    | .error _ => pure false

/-! ### `_assert_dirs_equal_cmp` (lines 190-238)

The per-entry attribute lists `d1`/`d2` are heterogeneous Python lists;
`PyVal` is their value sum type.  Tags are not used: as in the source, the
two lists are compared element-wise for equality and the positions of d1
and d2 always hold the same kind of value (both sides are built from the
one `attrs` list and the same option flags). -/

inductive PyVal where
  | int (i : Int)
  | str (s : String)
  | none
  | xa (x : Option XattrInput)
deriving DecidableEq

/-- The stat attribute names the code puts in its `attrs` list of field
name strings (line 202/205). -/
inductive StatField where
  | st_uid
  | st_gid
  | st_rdev
  | st_nlink
deriving DecidableEq

/-- `getattr(s, a)` for the names appearing in `attrs`. -/
def statGet (s : Stat) : StatField → PyVal
  | .st_uid => .int s.st_uid
  | .st_gid => .int s.st_gid
  | .st_rdev => .int s.st_rdev
  | .st_nlink => .int s.st_nlink

/-- Lines 200-205: `attrs = ["st_uid", "st_gid", "st_rdev"]`, with
`st_nlink` appended when `not fuse or not os.path.isdir(path1)` where
`fuse = s1.st_dev != s2.st_dev`. -/
def statAttrs (s1 s2 : Stat) (path1_isdir : Bool) : List StatField :=
  let fuse := s1.st_dev != s2.st_dev
  [.st_uid, .st_gid, .st_rdev] ++ (if !fuse || !path1_isdir then [.st_nlink] else [])

/-- Observations for one entry of `diff.common`: the two lstat results,
`os.path.isdir(path1)`, the `get_flags` values and the `get_all` xattr
collections of both sides. -/
structure EntryObs where
  filename : String
  s1 : Stat
  s2 : Stat
  path1_isdir : Bool
  flags1 : Int
  flags2 : Int
  xattrs1 : XattrInput
  xattrs2 : XattrInput
deriving DecidableEq

/-- The keyword options of `_assert_dirs_equal_cmp`. -/
structure CmpOpts where
  ignore_flags : Bool
  ignore_xattrs : Bool
  ignore_ns : Bool
deriving DecidableEq

/-- Module-level state the comparator reads: `is_utime_fully_supported()`,
`have_fuse_mtime_ns` and `st_mtime_ns_round`. -/
structure CmpConfig where
  utime_ok : Bool
  have_fuse_mtime_ns : Bool
  round_exp : Int
deriving DecidableEq

/-- Lines 198-233: build the two attribute vectors `d1`, `d2` for one
common entry, in the source's order: base list with the mode inserted at
index 1, flags appended, `d[4]` (st_rdev) nulled for non-devices, the
mtime appended under one of three rounding policies, the filtered xattrs
appended.  `int(x / 1e9)` is modeled as exact truncating division. -/
def entryVecs (e : EntryObs) (o : CmpOpts) (cfg : CmpConfig) :
    List PyVal × List PyVal :=
  let fuse := e.s1.st_dev != e.s2.st_dev
  let attrs := statAttrs e.s1 e.s2 e.path1_isdir
  let d1 := PyVal.str e.filename :: PyVal.str (pyOct e.s1.st_mode) :: attrs.map (statGet e.s1)
  let d2 := PyVal.str e.filename :: PyVal.str (pyOct e.s2.st_mode) :: attrs.map (statGet e.s2)
  let d1 := if !o.ignore_flags then d1 ++ [PyVal.int e.flags1] else d1
  let d2 := if !o.ignore_flags then d2 ++ [PyVal.int e.flags2] else d2
  -- ignore st_rdev if file is not a block/char device (lines 213-217)
  let d1 := if !S_ISCHR e.s1.st_mode && !S_ISBLK e.s1.st_mode then d1.set 4 PyVal.none else d1
  let d2 := if !S_ISCHR e.s2.st_mode && !S_ISBLK e.s2.st_mode then d2.set 4 PyVal.none else d2
  let mt :=
    if cfg.utime_ok then
      if o.ignore_ns then
        some (PyVal.int (Int.tdiv e.s1.st_mtime_ns 1000000000),
              PyVal.int (Int.tdiv e.s2.st_mtime_ns 1000000000))
      else if fuse && !cfg.have_fuse_mtime_ns then
        some (PyVal.int (pyRound e.s1.st_mtime_ns (-4)),
              PyVal.int (pyRound e.s2.st_mtime_ns (-4)))
      else
        some (PyVal.int (pyRound e.s1.st_mtime_ns cfg.round_exp),
              PyVal.int (pyRound e.s2.st_mtime_ns cfg.round_exp))
    else Option.none
  let d1 := match mt with | some p => d1 ++ [p.1] | Option.none => d1
  let d2 := match mt with | some p => d2 ++ [p.2] | Option.none => d2
  let d1 := if !o.ignore_xattrs then d1 ++ [PyVal.xa (no_selinux e.xattrs1)] else d1
  let d2 := if !o.ignore_xattrs then d2 ++ [PyVal.xa (no_selinux e.xattrs2)] else d2
  (d1, d2)

/-- Which of the four structural `assert_equal(..., [])` checks failed. -/
inductive StructCat where
  | leftOnly
  | rightOnly
  | diffFiles
  | funnyFiles
deriving DecidableEq

/-- An `AssertionError` from `_assert_dirs_equal_cmp`: either one of the
four structural list-vs-[] assertions, or the per-entry `assert_equal(d1, d2)`,
carrying exactly what the failing assertion compared. -/
inductive CmpFailure where
  | structural (cat : StructCat) (got : List String)
  | attrMismatch (d1 d2 : List PyVal)
deriving DecidableEq

/-- `self.assert_equal(lst, [])`: raise naming the offending category and
its contents, or pass. -/
def assertListEmpty (cat : StructCat) (l : List String) : Except CmpFailure Unit :=
  if l = [] then .ok () else .error (.structural cat l)

/-- Whether a raised `CmpFailure` names the given structural category: a
unittest `assert_equal(lst, [])` failure names exactly the one list it
compared. -/
def failureNames (f : CmpFailure) (cat : StructCat) : Bool :=
  match f with
  | .structural c _ => c == cat
  | .attrMismatch _ _ => false

/-- The `for filename in diff.common` loop (lines 195-234): build both
vectors, raise `attrMismatch` at the first `d1 != d2`. -/
def checkCommon (entries : List EntryObs) (o : CmpOpts) (cfg : CmpConfig) :
    Except CmpFailure Unit :=
  match entries with
  | [] => .ok ()
  | e :: es =>
    let v := entryVecs e o cfg
    if v.1 = v.2 then checkCommon es o cfg else .error (.attrMismatch v.1 v.2)

/-- A `filecmp.dircmp` result: the four structural lists, the observed
metadata of the common entries, and the dircmp objects of
`diff.subdirs.values()`. -/
inductive Dircmp where
  | mk (left_only right_only diff_files funny_files : List String)
       (common : List EntryObs) (subdirs : List Dircmp)

/-- The structural checks plus the common-entry loop of one level
(lines 191-234). -/
def checkLevel (lo ro df ff : List String) (common : List EntryObs)
    (o : CmpOpts) (cfg : CmpConfig) : Except CmpFailure Unit := do
  assertListEmpty .leftOnly lo
  assertListEmpty .rightOnly ro
  assertListEmpty .diffFiles df
  assertListEmpty .funnyFiles ff
  checkCommon common o cfg

mutual

/-- `_assert_dirs_equal_cmp` (lines 190-238): one level's checks, then
recursion into every `diff.subdirs` value with the same options. -/
def assertDirsEqualCmp (d : Dircmp) (o : CmpOpts) (cfg : CmpConfig) :
    Except CmpFailure Unit :=
  match d with
  | .mk lo ro df ff common subs => do
    checkLevel lo ro df ff common o cfg
    assertSubdirs subs o cfg

def assertSubdirs (l : List Dircmp) (o : CmpOpts) (cfg : CmpConfig) :
    Except CmpFailure Unit :=
  match l with
  | [] => .ok ()
  | d :: ds => do
    assertDirsEqualCmp d o cfg
    assertSubdirs ds o cfg

end

/-! ### `fuse_mount` (lines 240-295)

The context manager's control flow per process is embedded as the sequence
of externally visible steps each process performs.  `os.fork()` returns a
nonzero pid in the calling process, so after the fork the caller skips the
child block and falls through to the code after the `if os_fork: ... else:`
statement. -/

inductive MountAction where
  | makeMountpoint     -- tempfile.mkdtemp() or os.mkdir(mountpoint)
  | forkCall           -- os.fork()
  | setsidCall         -- os.setsid()
  | runCmd             -- self.cmd(*args, ...): the borg mount invocation
  | waitMounted        -- self.wait_for_mountstate(mountpoint, mounted=True)
  | yieldCtl           -- yield (control handed to the with-block body)
  | umountCall         -- umount(mountpoint)
  | waitUnmounted      -- self.wait_for_mountstate(mountpoint, mounted=False)
  | rmdirMountpoint    -- os.rmdir(mountpoint)
  | sleepGrace         -- time.sleep(0.2)
  | printFatal         -- the "did not daemonize" stderr message
  | exitProc           -- os._exit(0)
deriving DecidableEq

/-- The steps the CALLING process of `fuse_mount` executes, for a normal
pass through the whole context manager.  `exit_error` models
`kwargs.get("exit_code", EXIT_SUCCESS) == EXIT_ERROR`. -/
def fuse_mount_caller (os_fork : Bool) (exit_error : Bool) : List MountAction :=
  MountAction.makeMountpoint ::
  (if os_fork then
    -- os.fork() returns the child pid here, so the caller skips the child
    -- block and continues at line 289.
    [MountAction.forkCall,
     MountAction.waitMounted, MountAction.yieldCtl, MountAction.umountCall,
     MountAction.waitUnmounted, MountAction.rmdirMountpoint, MountAction.sleepGrace]
  else if exit_error then
    -- lines 280-288: cmd, then yield and return without waiting
    [MountAction.runCmd, MountAction.yieldCtl]
  else
    [MountAction.runCmd,
     MountAction.waitMounted, MountAction.yieldCtl, MountAction.umountCall,
     MountAction.waitUnmounted, MountAction.rmdirMountpoint, MountAction.sleepGrace])

/-- The steps of the first forked child (lines 263-278): `setsid`, a second
fork; the intermediate process exits at once, while the grandchild runs the
mount command (`fork=False`) and, should that return, prints and exits. -/
def fuse_mount_child (second_fork_is_child : Bool) : List MountAction :=
  MountAction.setsidCall :: MountAction.forkCall ::
  (if second_fork_is_child then
    [MountAction.runCmd, MountAction.printFatal, MountAction.exitProc]
  else
    [MountAction.exitProc])

/-! ### `wait_for_mountstate` (lines 297-305)

`os.path.ismount` is an oracle indexed by the poll number; wall-clock time
is idealized as poll-count multiplied by the 100ms sleep, so with the
5-second default the loop `while timeout > time.time()` performs exactly
`10 * timeout` polls.  The result carries the message and the number of
polls made (`.error`) or the poll index that observed the target state
(`.ok`). -/

def mountWaitMessage (mounted : Bool) (mountpoint : String) : String :=
  "Waiting for " ++ (if mounted then "mount" else "umount") ++ " of " ++ mountpoint

def wait_poll (ismount : Nat → Bool) (mounted : Bool) (mountpoint : String) :
    Nat → Nat → Except (String × Nat) Nat
  | 0, k => .error (mountWaitMessage mounted mountpoint, k)
  | n + 1, k =>
    if ismount k = mounted then .ok k
    else wait_poll ismount mounted mountpoint n (k + 1)

def wait_for_mountstate (ismount : Nat → Bool) (mounted : Bool)
    (mountpoint : String) (timeout : Nat) : Except (String × Nat) Nat :=
  wait_poll ismount mounted mountpoint (10 * timeout) 0

/-! ## Theorems -/

/-- Claim C5: the rounding exponent is 0 with a nanosecond-resolution
time-setting primitive (HAVE_FUTIMENS), else -3 with a microsecond one
(HAVE_UTIMES), else -9; and on NetBSD it is -4 regardless. -/
theorem st_mtime_ns_round_decision (f u n : Bool) :
    (n = true → st_mtime_ns_round f u n = -4) ∧
    (n = false → f = true → st_mtime_ns_round f u n = 0) ∧
    (n = false → f = false → u = true → st_mtime_ns_round f u n = -3) ∧
    (n = false → f = false → u = false → st_mtime_ns_round f u n = -9) := by
  cases f <;> cases u <;> cases n <;> simp [st_mtime_ns_round]

theorem st_mtime_ns_round_decision_witness :
    st_mtime_ns_round true true true = -4 ∧
    st_mtime_ns_round true false false = 0 ∧
    st_mtime_ns_round false true false = -3 ∧
    st_mtime_ns_round false false false = -9 :=
  ⟨(st_mtime_ns_round_decision true true true).1 rfl,
   (st_mtime_ns_round_decision true false false).2.1 rfl rfl,
   (st_mtime_ns_round_decision false true false).2.2.1 rfl rfl rfl,
   (st_mtime_ns_round_decision false false false).2.2.2 rfl rfl rfl⟩

/-- Claim C10: for any input that is neither a dict nor a list, `no_selinux`
returns `None`: the collection is dropped rather than filtered. -/
theorem no_selinux_drops_other_inputs (v : Nat) :
    no_selinux (XattrInput.other v) = Option.none := rfl

/-- Claim C8: `no_selinux` preserves the collection's type and the order of
the surviving entries, keeps exactly the entries whose key is not
`security.selinux`, and gives the same result on a collection with that key
as on the collection with the key absent. -/
theorem no_selinux_filters_selinux_key (es : List (String × String)) (ks : List String) :
    (∃ es', no_selinux (XattrInput.dict es) = some (XattrInput.dict es') ∧
       es'.Sublist es ∧ ∀ kv, kv ∈ es' ↔ kv ∈ es ∧ kv.1 ≠ SELINUX_KEY) ∧
    (∃ ks', no_selinux (XattrInput.list ks) = some (XattrInput.list ks') ∧
       ks'.Sublist ks ∧ ∀ k, k ∈ ks' ↔ k ∈ ks ∧ k ≠ SELINUX_KEY) ∧
    no_selinux (XattrInput.dict es) =
      no_selinux (XattrInput.dict (es.filter (fun kv => kv.1 != SELINUX_KEY))) ∧
    no_selinux (XattrInput.list ks) =
      no_selinux (XattrInput.list (ks.filter (fun k => k != SELINUX_KEY))) := by
  refine ⟨⟨_, rfl, List.filter_sublist _, ?_⟩, ⟨_, rfl, List.filter_sublist _, ?_⟩, ?_, ?_⟩
  · intro kv
    simp [List.mem_filter]
  · intro k
    simp [List.mem_filter]
  · simp [no_selinux, List.filter_filter]
  · simp [no_selinux, List.filter_filter]

theorem no_selinux_filters_selinux_key_witness :
    no_selinux (XattrInput.list ["user.x", SELINUX_KEY, "user.y"]) =
      no_selinux (XattrInput.list ["user.x", "user.y"]) := by
  have h := (no_selinux_filters_selinux_key [] ["user.x", SELINUX_KEY, "user.y"]).2.2.2
  simpa using h

/-- Claim C2, counterexample: with `os_fork = True` the calling process
falls through to line 289 after `os.fork()` and executes
`wait_for_mountstate(..., mounted=True)` before yielding, so the caller
does wait for mounted status, contrary to the claim. -/
theorem fuse_mount_os_fork_caller_waits :
    MountAction.waitMounted ∈
      (fuse_mount_caller true false).takeWhile (fun a => a != MountAction.yieldCtl) := by
  decide

/-- Claim C2 (amended): in the double-OS-fork mode only the final forked
descendant executes the mount invocation (neither the caller nor the
intermediate process runs `self.cmd`), but the caller's process still
waits for the mountpoint to reach mounted status before yielding control. -/
theorem fuse_mount_os_fork_spec (exit_error second_fork_is_child : Bool) :
    MountAction.runCmd ∉ fuse_mount_caller true exit_error ∧
    (second_fork_is_child = true →
      MountAction.runCmd ∈ fuse_mount_child second_fork_is_child) ∧
    (second_fork_is_child = false →
      MountAction.runCmd ∉ fuse_mount_child second_fork_is_child) ∧
    MountAction.waitMounted ∈
      (fuse_mount_caller true exit_error).takeWhile (fun a => a != MountAction.yieldCtl) := by
  cases exit_error <;> cases second_fork_is_child <;> refine ⟨?_, ?_, ?_, ?_⟩ <;> decide

theorem fuse_mount_os_fork_spec_witness :
    MountAction.runCmd ∉ fuse_mount_caller true false ∧
    MountAction.runCmd ∈ fuse_mount_child true ∧
    MountAction.runCmd ∉ fuse_mount_child false :=
  ⟨(fuse_mount_os_fork_spec false true).1,
   (fuse_mount_os_fork_spec false true).2.1 rfl,
   (fuse_mount_os_fork_spec false false).2.2.1 rfl⟩

theorem wait_poll_never (ismount : Nat → Bool) (mounted : Bool) (mp : String)
    (h : ∀ k, ismount k ≠ mounted) :
    ∀ n k0, wait_poll ismount mounted mp n k0 =
      .error (mountWaitMessage mounted mp, k0 + n) := by
  intro n
  induction n with
  | zero => intro k0; simp [wait_poll]
  | succ m ih =>
    intro k0
    rw [wait_poll, if_neg (h k0), ih (k0 + 1)]
    congr 2
    omega

theorem wait_poll_finds (ismount : Nat → Bool) (mounted : Bool) (mp : String) :
    ∀ n k0, (∃ k, k0 ≤ k ∧ k < k0 + n ∧ ismount k = mounted) →
      ∃ j, wait_poll ismount mounted mp n k0 = .ok j := by
  intro n
  induction n with
  | zero =>
    intro k0 ⟨k, hk1, hk2, _⟩
    omega
  | succ m ih =>
    intro k0 ⟨k, hk1, hk2, hk3⟩
    by_cases h0 : ismount k0 = mounted
    · exact ⟨k0, by rw [wait_poll, if_pos h0]⟩
    · have hne : k ≠ k0 := fun he => h0 (he ▸ hk3)
      obtain ⟨j, hj⟩ := ih (k0 + 1) ⟨k, by omega, by omega, hk3⟩
      exact ⟨j, by rw [wait_poll, if_neg h0, hj]⟩

/-- Claim C9: if the mount-state oracle never reports the target state,
`wait_for_mountstate` raises a `TimeoutError` after exactly `10 * timeout`
100ms polls (so the elapsed modeled time, `100 * (10 * timeout)` ms, is
within `timeout` seconds plus one interval), and the message names the
direction and the mountpoint; if the oracle reports the target state at
some poll within the window, the wait returns without error. -/
theorem wait_for_mountstate_spec (ismount : Nat → Bool) (mounted : Bool)
    (mp : String) (timeout : Nat) :
    ((∀ k, ismount k ≠ mounted) →
      wait_for_mountstate ismount mounted mp timeout =
        .error (mountWaitMessage mounted mp, 10 * timeout) ∧
      100 * (10 * timeout) ≤ 1000 * timeout + 100) ∧
    ((∃ k, k < 10 * timeout ∧ ismount k = mounted) →
      ∃ j, wait_for_mountstate ismount mounted mp timeout = .ok j) ∧
    mountWaitMessage true mp = "Waiting for mount of " ++ mp ∧
    mountWaitMessage false mp = "Waiting for umount of " ++ mp := by
  refine ⟨fun h => ⟨?_, by omega⟩, fun ⟨k, hk1, hk2⟩ => ?_, rfl, rfl⟩
  · unfold wait_for_mountstate
    rw [wait_poll_never ismount mounted mp h (10 * timeout) 0]
    congr 2
    omega
  · exact wait_poll_finds ismount mounted mp (10 * timeout) 0 ⟨k, by omega, by omega, hk2⟩

theorem wait_for_mountstate_spec_witness :
    wait_for_mountstate (fun _ => false) true "mnt" 1 =
      .error (mountWaitMessage true "mnt", 10) ∧
    (∃ j, wait_for_mountstate (fun _ => true) true "mnt" 1 = .ok j) :=
  ⟨((wait_for_mountstate_spec (fun _ => false) true "mnt" 1).1
      (fun k => by simp)).1,
   (wait_for_mountstate_spec (fun _ => true) true "mnt" 1).2.1
      ⟨0, by omega, rfl⟩⟩

/-- Claim C4, counterexample: in `are_hardlinks_supported` the
`open(file1path, "w").close()` on line 87 runs before the `try`, so an
`OSError` (here errno 13, EACCES) raised while creating the first file
propagates out of the probe instead of yielding "not supported". -/
theorem hardlink_probe_propagates_setup_error :
    are_hardlinks_supported
      ⟨true, .error ⟨13⟩, .ok (),
       .ok ⟨0, 0, 0, 0, 2, 0, 0, 0, 0, 0, 0⟩,
       .ok ⟨0, 0, 0, 0, 2, 0, 0, 0, 0, 0, 0⟩⟩ = .error ⟨13⟩ := rfl

/-- Claim C4 (amended): every OS error raised by the filesystem operations
inside a probe's `try` block is converted to a negative result; the symlink
and fifo probes therefore never propagate an error, while the hardlink,
utime and birthtime probes never propagate one provided their setup
file/entry creation (which the source runs before the `try`) succeeds. -/
theorem probes_absorb_try_block_oserrors (so : SymlinkOps) (fo : FifoOps)
    (ho : HardlinkOps) (uo : UtimeOps) (bo : BirthtimeOps) :
    (∃ b, are_symlinks_supported so = .ok b) ∧
    (∃ b, are_fifos_supported fo = .ok b) ∧
    (ho.create_file1 = .ok () → ∃ b, are_hardlinks_supported ho = .ok b) ∧
    ((if uo.symlinks_supported then uo.create_symlink else uo.create_file) = .ok () →
      ∃ b, is_utime_fully_supported uo = .ok b) ∧
    ((if bo.symlinks_supported then bo.create_symlink else bo.create_file) = .ok () →
      ∃ b, is_birthtime_fully_supported bo = .ok b) := by
  refine ⟨?_, ?_, fun h1 => ?_, fun h2 => ?_, fun h3 => ?_⟩
  · unfold are_symlinks_supported
    rcases so with ⟨s1, s2, s3⟩
    cases s1 <;> cases s2 <;> cases s3 <;> simp [Bind.bind, Except.bind, Pure.pure, Except.pure]
  · unfold are_fifos_supported
    rcases fo with ⟨f1⟩
    cases f1 <;> simp
  · unfold are_hardlinks_supported
    rcases ho with ⟨hl, c1, l1, st1, st2⟩
    simp only at h1
    subst h1
    cases hl <;> cases l1 <;> cases st1 <;> cases st2 <;> simp [Bind.bind, Except.bind, Pure.pure, pure, Except.pure]
  · unfold is_utime_fully_supported
    rcases uo with ⟨ss, cs, cf, ut, st⟩
    simp only at h2
    rw [h2]
    cases ut <;> cases st <;> simp [Bind.bind, Except.bind, Pure.pure, pure, Except.pure]
  · unfold is_birthtime_fully_supported
    rcases bo with ⟨hb, ss, cs, cf, u1, u2, st⟩
    simp only at h3
    rw [h3]
    cases hb <;> cases u1 <;> cases u2 <;> cases st <;>
      simp [Bind.bind, Except.bind, Pure.pure, pure, Except.pure]

theorem probes_absorb_try_block_oserrors_witness :
    (∃ b, are_hardlinks_supported ⟨true, .ok (), .error ⟨13⟩,
        .ok ⟨0, 0, 0, 0, 2, 0, 0, 0, 0, 0, 0⟩,
        .ok ⟨0, 0, 0, 0, 2, 0, 0, 0, 0, 0, 0⟩⟩ = .ok b) ∧
    (∃ b, is_utime_fully_supported ⟨true, .ok (), .error ⟨13⟩, .error ⟨13⟩,
        .error ⟨13⟩⟩ = .ok b) ∧
    (∃ b, is_birthtime_fully_supported ⟨true, true, .ok (), .error ⟨13⟩,
        .error ⟨13⟩, .error ⟨13⟩, .error ⟨13⟩⟩ = .ok b) :=
  ⟨(probes_absorb_try_block_oserrors ⟨.ok (), .error ⟨13⟩, .error ⟨13⟩⟩ ⟨.ok ()⟩
      ⟨true, .ok (), .error ⟨13⟩,
       .ok ⟨0, 0, 0, 0, 2, 0, 0, 0, 0, 0, 0⟩,
       .ok ⟨0, 0, 0, 0, 2, 0, 0, 0, 0, 0, 0⟩⟩
      ⟨true, .ok (), .error ⟨13⟩, .error ⟨13⟩, .error ⟨13⟩⟩
      ⟨true, true, .ok (), .error ⟨13⟩, .error ⟨13⟩, .error ⟨13⟩, .error ⟨13⟩⟩).2.2.1 rfl,
   (probes_absorb_try_block_oserrors ⟨.ok (), .error ⟨13⟩, .error ⟨13⟩⟩ ⟨.ok ()⟩
      ⟨true, .ok (), .error ⟨13⟩,
       .ok ⟨0, 0, 0, 0, 2, 0, 0, 0, 0, 0, 0⟩,
       .ok ⟨0, 0, 0, 0, 2, 0, 0, 0, 0, 0, 0⟩⟩
      ⟨true, .ok (), .error ⟨13⟩, .error ⟨13⟩, .error ⟨13⟩⟩
      ⟨true, true, .ok (), .error ⟨13⟩, .error ⟨13⟩, .error ⟨13⟩, .error ⟨13⟩⟩).2.2.2.1 rfl,
   (probes_absorb_try_block_oserrors ⟨.ok (), .error ⟨13⟩, .error ⟨13⟩⟩ ⟨.ok ()⟩
      ⟨true, .ok (), .error ⟨13⟩,
       .ok ⟨0, 0, 0, 0, 2, 0, 0, 0, 0, 0, 0⟩,
       .ok ⟨0, 0, 0, 0, 2, 0, 0, 0, 0, 0, 0⟩⟩
      ⟨true, .ok (), .error ⟨13⟩, .error ⟨13⟩, .error ⟨13⟩⟩
      ⟨true, true, .ok (), .error ⟨13⟩, .error ⟨13⟩, .error ⟨13⟩, .error ⟨13⟩⟩).2.2.2.2 rfl⟩

theorem checkLevel_structural (lo ro df ff : List String) (common : List EntryObs)
    (o : CmpOpts) (cfg : CmpConfig) :
    (¬(lo = [] ∧ ro = [] ∧ df = [] ∧ ff = []) →
      ∃ cat got, checkLevel lo ro df ff common o cfg =
        .error (.structural cat got)) ∧
    (lo = [] → ro ≠ [] →
      checkLevel lo ro df ff common o cfg =
        .error (.structural .rightOnly ro)) := by
  constructor
  · intro h
    by_cases h1 : lo = []
    · by_cases h2 : ro = []
      · by_cases h3 : df = []
        · by_cases h4 : ff = []
          · exact absurd ⟨h1, h2, h3, h4⟩ h
          · exact ⟨.funnyFiles, ff,
              by simp [checkLevel, assertListEmpty, h1, h2, h3, h4, Bind.bind, Except.bind]⟩
        · exact ⟨.diffFiles, df,
            by simp [checkLevel, assertListEmpty, h1, h2, h3, Bind.bind, Except.bind]⟩
      · exact ⟨.rightOnly, ro,
          by simp [checkLevel, assertListEmpty, h1, h2, Bind.bind, Except.bind]⟩
    · exact ⟨.leftOnly, lo,
        by simp [checkLevel, assertListEmpty, h1, Bind.bind, Except.bind]⟩
  · intro h1 h2
    simp [checkLevel, assertListEmpty, h1, h2, Bind.bind, Except.bind]

/-- Claim C3 (amended): when any structural category of the single-level
diff is non-empty, the comparison fails immediately with a structural
failure naming the first non-empty category (in the fixed order left-only,
right-only, content-differing, funny), before any per-entry attribute
vector is compared; in particular with right entries exceeding the left by
one file, the failure reports that file as right-only, whatever the common
entries hold. -/
theorem structural_diff_fails_before_attrs (lo ro df ff : List String)
    (common : List EntryObs) (subs : List Dircmp) (o : CmpOpts) (cfg : CmpConfig) :
    (¬(lo = [] ∧ ro = [] ∧ df = [] ∧ ff = []) →
      ∃ cat got, assertDirsEqualCmp (.mk lo ro df ff common subs) o cfg =
        .error (.structural cat got)) ∧
    (lo = [] → ro ≠ [] →
      assertDirsEqualCmp (.mk lo ro df ff common subs) o cfg =
        .error (.structural .rightOnly ro)) := by
  have hc := checkLevel_structural lo ro df ff common o cfg
  constructor
  · intro h
    obtain ⟨cat, got, hcl⟩ := hc.1 h
    exact ⟨cat, got, by rw [assertDirsEqualCmp]; simp [hcl, Bind.bind, Except.bind]⟩
  · intro h1 h2
    have hcl := hc.2 h1 h2
    rw [assertDirsEqualCmp]
    simp [hcl, Bind.bind, Except.bind]

theorem structural_diff_fails_before_attrs_witness :
    assertDirsEqualCmp
      (Dircmp.mk [] ["c"] [] []
        [⟨"a", ⟨0o100644, 0, 0, 0, 1, 5, 7, 0, 0, 0, 0⟩,
              ⟨0o100644, 9, 9, 0, 1, 5, 8, 0, 0, 0, 0⟩,
          false, 0, 0, .list [], .list []⟩] [])
      ⟨false, false, false⟩ ⟨true, true, 0⟩ =
      .error (.structural .rightOnly ["c"]) :=
  (structural_diff_fails_before_attrs [] ["c"] [] []
      [⟨"a", ⟨0o100644, 0, 0, 0, 1, 5, 7, 0, 0, 0, 0⟩,
            ⟨0o100644, 9, 9, 0, 1, 5, 8, 0, 0, 0, 0⟩,
        false, 0, 0, .list [], .list []⟩] []
      ⟨false, false, false⟩ ⟨true, true, 0⟩).2 rfl (by simp)

/-- Claim C3, counterexample: on the claim's own scenario (left entries a
and b, right entries a, b and c) the raised failure is the single
`assert_equal(diff.right_only, [])` assertion naming only the right-only
category; it does not name the left-only or content-differing categories,
so the comparison does not fail "naming all three categories". -/
theorem structural_diff_names_single_category :
    assertDirsEqualCmp
      (Dircmp.mk [] ["c"] [] []
        [⟨"a", ⟨0o100644, 0, 0, 0, 1, 5, 7, 0, 0, 0, 0⟩,
              ⟨0o100644, 0, 0, 0, 1, 5, 7, 0, 0, 0, 0⟩,
          false, 0, 0, .list [], .list []⟩,
         ⟨"b", ⟨0o100644, 0, 0, 0, 1, 5, 9, 0, 0, 0, 0⟩,
              ⟨0o100644, 0, 0, 0, 1, 5, 9, 0, 0, 0, 0⟩,
          false, 0, 0, .list [], .list []⟩] [])
      ⟨false, false, false⟩ ⟨true, true, 0⟩ =
      .error (.structural .rightOnly ["c"]) ∧
    failureNames (.structural .rightOnly ["c"]) .rightOnly = true ∧
    failureNames (.structural .rightOnly ["c"]) .leftOnly = false ∧
    failureNames (.structural .rightOnly ["c"]) .diffFiles = false := by
  refine ⟨?_, rfl, rfl, rfl⟩
  rw [assertDirsEqualCmp]
  simp [checkLevel, assertListEmpty, Bind.bind, Except.bind]

/-- Claim C7: index 4 of each attribute vector is the `st_rdev` slot; for a
side that is neither a character nor a block device it is overwritten with
`None` before comparison, while for a character/block device the raw
`st_rdev` value is kept. -/
theorem rdev_nulled_for_non_devices (e : EntryObs) (o : CmpOpts) (cfg : CmpConfig) :
    (S_ISCHR e.s1.st_mode = false → S_ISBLK e.s1.st_mode = false →
      (entryVecs e o cfg).1[4]? = some PyVal.none) ∧
    (S_ISCHR e.s2.st_mode = false → S_ISBLK e.s2.st_mode = false →
      (entryVecs e o cfg).2[4]? = some PyVal.none) ∧
    ((S_ISCHR e.s1.st_mode = true ∨ S_ISBLK e.s1.st_mode = true) →
      (entryVecs e o cfg).1[4]? = some (PyVal.int e.s1.st_rdev)) ∧
    ((S_ISCHR e.s2.st_mode = true ∨ S_ISBLK e.s2.st_mode = true) →
      (entryVecs e o cfg).2[4]? = some (PyVal.int e.s2.st_rdev)) := by
  refine ⟨fun hc hb => ?_, fun hc hb => ?_, fun h => ?_, fun h => ?_⟩ <;>
    simp only [entryVecs, statAttrs, statGet]
  · simp [hc, hb]
    split <;> split <;> split <;> simp
  · simp [hc, hb]
    split <;> split <;> split <;> simp
  · have hcond : (!S_ISCHR e.s1.st_mode && !S_ISBLK e.s1.st_mode) = false := by
      rcases h with h | h <;> simp [h]
    simp [hcond]
    split <;> split <;> split <;> simp [statGet]
  · have hcond : (!S_ISCHR e.s2.st_mode && !S_ISBLK e.s2.st_mode) = false := by
      rcases h with h | h <;> simp [h]
    simp [hcond]
    split <;> split <;> split <;> simp [statGet]

theorem rdev_nulled_for_non_devices_witness :
    (entryVecs ⟨"f", ⟨0o100644, 0, 0, 11, 1, 5, 7, 0, 0, 0, 0⟩,
        ⟨0o100644, 0, 0, 22, 1, 5, 7, 0, 0, 0, 0⟩,
        false, 0, 0, .list [], .list []⟩
      ⟨false, false, false⟩ ⟨true, true, 0⟩).1[4]? = some PyVal.none ∧
    (entryVecs ⟨"f", ⟨0o100644, 0, 0, 11, 1, 5, 7, 0, 0, 0, 0⟩,
        ⟨0o100644, 0, 0, 22, 1, 5, 7, 0, 0, 0, 0⟩,
        false, 0, 0, .list [], .list []⟩
      ⟨false, false, false⟩ ⟨true, true, 0⟩).2[4]? = some PyVal.none ∧
    (entryVecs ⟨"d", ⟨0o020644, 0, 0, 11, 1, 5, 7, 0, 0, 0, 0⟩,
        ⟨0o020644, 0, 0, 22, 1, 5, 7, 0, 0, 0, 0⟩,
        false, 0, 0, .list [], .list []⟩
      ⟨false, false, false⟩ ⟨true, true, 0⟩).1[4]? = some (PyVal.int 11) :=
  ⟨(rdev_nulled_for_non_devices ⟨"f", ⟨0o100644, 0, 0, 11, 1, 5, 7, 0, 0, 0, 0⟩,
        ⟨0o100644, 0, 0, 22, 1, 5, 7, 0, 0, 0, 0⟩,
        false, 0, 0, .list [], .list []⟩
      ⟨false, false, false⟩ ⟨true, true, 0⟩).1 rfl rfl,
   (rdev_nulled_for_non_devices ⟨"f", ⟨0o100644, 0, 0, 11, 1, 5, 7, 0, 0, 0, 0⟩,
        ⟨0o100644, 0, 0, 22, 1, 5, 7, 0, 0, 0, 0⟩,
        false, 0, 0, .list [], .list []⟩
      ⟨false, false, false⟩ ⟨true, true, 0⟩).2.1 rfl rfl,
   (rdev_nulled_for_non_devices ⟨"d", ⟨0o020644, 0, 0, 11, 1, 5, 7, 0, 0, 0, 0⟩,
        ⟨0o020644, 0, 0, 22, 1, 5, 7, 0, 0, 0, 0⟩,
        false, 0, 0, .list [], .list []⟩
      ⟨false, false, false⟩ ⟨true, true, 0⟩).2.2.1 (Or.inl rfl)⟩

/-- Claim C6: `st_nlink` is part of the attribute list (and hence of both
attribute vectors, at index 5) exactly when it is not the case that the
entry is a directory and the two sides report different `st_dev` values;
when the entry is a directory on differing devices the link count is
omitted from the attribute list. -/
theorem nlink_included_iff (e : EntryObs) (o : CmpOpts) (cfg : CmpConfig) :
    (StatField.st_nlink ∈ statAttrs e.s1 e.s2 e.path1_isdir ↔
      ¬(e.path1_isdir = true ∧ e.s1.st_dev ≠ e.s2.st_dev)) ∧
    (¬(e.path1_isdir = true ∧ e.s1.st_dev ≠ e.s2.st_dev) →
      (entryVecs e o cfg).1[5]? = some (PyVal.int e.s1.st_nlink) ∧
      (entryVecs e o cfg).2[5]? = some (PyVal.int e.s2.st_nlink)) ∧
    ((e.path1_isdir = true ∧ e.s1.st_dev ≠ e.s2.st_dev) →
      StatField.st_nlink ∉ statAttrs e.s1 e.s2 e.path1_isdir) := by
  by_cases hd : e.path1_isdir = true <;> by_cases hv : e.s1.st_dev = e.s2.st_dev
  · refine ⟨by simp [statAttrs, hd, hv], fun _ => ?_, by simp [hv]⟩
    constructor <;>
      (simp only [entryVecs, statAttrs, statGet, hd, hv]
       simp
       split <;> split <;> split <;> (try split) <;> simp [statGet])
  · refine ⟨by simp [statAttrs, hd, hv], fun h => absurd ⟨hd, hv⟩ h, fun _ => ?_⟩
    simp [statAttrs, hd, hv]
  · have hd' : e.path1_isdir = false := by simpa using hd
    refine ⟨by simp [statAttrs, hd', hv], fun _ => ?_, by simp [hd]⟩
    constructor <;>
      (simp only [entryVecs, statAttrs, statGet, hd', hv]
       simp
       split <;> split <;> split <;> (try split) <;> simp [statGet])
  · have hd' : e.path1_isdir = false := by simpa using hd
    refine ⟨by simp [statAttrs, hd', hv], fun _ => ?_, by simp [hd]⟩
    constructor <;>
      (simp only [entryVecs, statAttrs, statGet, hd', hv]
       simp [bne_iff_ne, hv]
       split <;> split <;> split <;> (try split) <;> simp [statGet])

theorem nlink_included_iff_witness :
    (entryVecs ⟨"f", ⟨0o100644, 0, 0, 0, 3, 5, 7, 0, 0, 0, 0⟩,
        ⟨0o100644, 0, 0, 0, 4, 5, 7, 0, 0, 0, 0⟩,
        false, 0, 0, .list [], .list []⟩
      ⟨false, false, false⟩ ⟨true, true, 0⟩).1[5]? = some (PyVal.int 3) ∧
    StatField.st_nlink ∉
      statAttrs ⟨0o040755, 0, 0, 0, 3, 5, 7, 0, 0, 0, 0⟩
        ⟨0o040755, 0, 0, 0, 4, 6, 7, 0, 0, 0, 0⟩ true :=
  ⟨((nlink_included_iff ⟨"f", ⟨0o100644, 0, 0, 0, 3, 5, 7, 0, 0, 0, 0⟩,
        ⟨0o100644, 0, 0, 0, 4, 5, 7, 0, 0, 0, 0⟩,
        false, 0, 0, .list [], .list []⟩
      ⟨false, false, false⟩ ⟨true, true, 0⟩).2.1 (by simp)).1,
   ((nlink_included_iff ⟨"d", ⟨0o040755, 0, 0, 0, 3, 5, 7, 0, 0, 0, 0⟩,
        ⟨0o040755, 0, 0, 0, 4, 6, 7, 0, 0, 0, 0⟩,
        true, 0, 0, .list [], .list []⟩
      ⟨false, false, false⟩ ⟨true, true, 0⟩).2.2 (by simp))⟩

theorem roundHalfEven_dist (x m : Int) (hm : 0 < m) :
    2 * (roundHalfEven x m - x).natAbs ≤ m.natAbs := by
  have hdecomp := Int.fmod_add_fdiv x m
  have hr0 : 0 ≤ x.fmod m := Int.fmod_nonneg' x hm
  have hrm : x.fmod m < m := Int.fmod_lt_of_pos x hm
  simp only [roundHalfEven]
  split
  · have h1 : x.fdiv m * m - x = -(x.fmod m) := by linarith [hdecomp]
    rw [h1]
    omega
  · split
    · have h2 : (x.fdiv m + 1) * m - x = m - x.fmod m := by linarith [hdecomp]
      rw [h2]
      omega
    · split
      · have h1 : x.fdiv m * m - x = -(x.fmod m) := by linarith [hdecomp]
        rw [h1]
        omega
      · have h2 : (x.fdiv m + 1) * m - x = m - x.fmod m := by linarith [hdecomp]
        rw [h2]
        omega

theorem pyRound_dist (x : Int) (n : Nat) :
    2 * (pyRound x (-(n : Int)) - x).natAbs ≤ 10 ^ n := by
  rcases Nat.eq_zero_or_pos n with hn | hn
  · subst hn
    simp [pyRound]
  · have hneg : ¬ (0 ≤ -(n : Int)) := by omega
    rw [pyRound, if_neg hneg]
    have he : (-(-(n : Int))).toNat = n := by omega
    rw [he]
    have hm : (0 : Int) < 10 ^ n := by positivity
    calc 2 * (roundHalfEven x (10 ^ n) - x).natAbs
        ≤ ((10 : Int) ^ n).natAbs := roundHalfEven_dist x (10 ^ n) hm
      _ = 10 ^ n := by simp [Int.natAbs_pow]

/-- Claim C1, counterexample: with nanosecond precision (HAVE_FUTIMENS set,
so `st_mtime_ns_round = 0` and granularity 10^0 = 1 ns) the timestamps 0
and 1 ns differ by no more than the granularity, yet `round(x, 0)` leaves
them distinct and the per-entry comparison of `_assert_dirs_equal_cmp`
treats the two entries as unequal, so the rounding used before equality
checking does not treat every within-granularity pair as equal. -/
theorem within_granularity_not_rounded_equal :
    ((0 : Int) - 1).natAbs ≤ 10 ^ (-(st_mtime_ns_round true true false)).toNat ∧
    pyRound 0 (st_mtime_ns_round true true false) ≠
      pyRound 1 (st_mtime_ns_round true true false) ∧
    checkCommon
      [⟨"f", ⟨0o100644, 0, 0, 0, 1, 5, 7, 0, 0, 0, 0⟩,
            ⟨0o100644, 0, 0, 0, 1, 5, 7, 1, 0, 0, 0⟩,
        false, 0, 0, .list [], .list []⟩]
      ⟨false, false, false⟩ ⟨true, true, st_mtime_ns_round true true false⟩ ≠
      .ok () := by
  refine ⟨by decide, by decide, by decide⟩

/-- Claim C1 (amended): `same_ts_ns` treats any two timestamps within the
granularity 10^n as equal and any two differing by more than twice the
granularity (indeed more than once) as unequal; the `round` applied before
equality checking guarantees only the second half — values differing by
more than twice the granularity never round to the same value, while
values within the granularity may round apart. -/
theorem timestamp_granularity_spec (n : Nat) (t1 t2 : Int) :
    ((t1 - t2).natAbs ≤ 10 ^ n → same_ts_ns (-(n : Int)) t1 t2 = true) ∧
    (2 * 10 ^ n < (t1 - t2).natAbs → same_ts_ns (-(n : Int)) t1 t2 = false) ∧
    (2 * 10 ^ n < (t1 - t2).natAbs →
      pyRound t1 (-(n : Int)) ≠ pyRound t2 (-(n : Int))) := by
  have he : (-(-(n : Int))).toNat = n := by omega
  refine ⟨fun h => ?_, fun h => ?_, fun h heq => ?_⟩
  · simp [same_ts_ns, he, h]
  · have hpos : 0 < 10 ^ n := by positivity
    have hgt : ¬ ((t1 - t2).natAbs ≤ 10 ^ n) := by omega
    simp [same_ts_ns, he, hgt]
  · have h1 := pyRound_dist t1 n
    have h2 := pyRound_dist t2 n
    rw [heq] at h1
    generalize pyRound t2 (-(n : Int)) = R at h1 h2
    generalize hM : 10 ^ n = M at h h1 h2
    omega

theorem timestamp_granularity_spec_witness :
    same_ts_ns (-((3 : Nat) : Int)) 0 500 = true ∧
    same_ts_ns (-((3 : Nat) : Int)) 0 3000 = false ∧
    pyRound 0 (-((3 : Nat) : Int)) ≠ pyRound 2001 (-((3 : Nat) : Int)) :=
  ⟨(timestamp_granularity_spec 3 0 500).1 (by decide),
   (timestamp_granularity_spec 3 0 3000).2.1 (by decide),
   (timestamp_granularity_spec 3 0 2001).2.2 (by decide)⟩

end BorgTestsuite
